import Mathlib

/-!
# FluidDCA executor: shallow embedding

A shallow embedding of the FluidDCA execution engine
(`fluiddca/rootfs/app/alchemy-executor.ts`, `fluiddca/rootfs/app/run-execution.ts`
and the 1inch quote fetcher module).

Modelling conventions:
* JavaScript `bigint` values are modelled as `Int`; bigint division truncates
  toward zero, which is `Int.tdiv`.
* JavaScript floating-point numbers that only feed a comparison
  (`totalCostUsd` vs the gas ceiling) are modelled as exact rationals `ℚ`;
  the comparison logic of the gate is what is being verified.
* Network and chain responses are inputs: a `ChainEnv` record supplies the
  values each RPC / HTTP call would return.  A call whose library wrapper can
  throw is modelled with `Option` / `Except` (`none` / `.error` = the call threw).
* Effectful functions return, next to their value, the list of outbound calls
  they issued (`CallEvent`), in order; this is the observable trace the
  temporal claims quantify over.
-/

namespace FluidDCA

/-- Equality on `Except` is decidable component-wise (needed to evaluate the
fetcher and engine on concrete inputs with `decide`). -/
instance {ε α : Type} [DecidableEq ε] [DecidableEq α] : DecidableEq (Except ε α) := fun x y =>
  match x, y with
  | .ok a, .ok b => decidable_of_iff (a = b) (by simp)
  | .error a, .error b => decidable_of_iff (a = b) (by simp)
  | .ok _, .error _ => isFalse (by simp)
  | .error _, .ok _ => isFalse (by simp)

/-- The two swap legs of an invocation. -/
inductive SwapLeg where
  | usdc
  | eth
deriving DecidableEq, Repr

/-- The three Chainlink oracles read by the executor (`ORACLES` constant:
EUR_USD, USDC_USD, ETH_USD). -/
inductive Oracle where
  | eurUsd
  | usdcUsd
  | ethUsd
deriving DecidableEq, Repr

/-- One outbound call issued by the engine: chain reads, aggregator HTTP
calls, the read-only simulation and the one state-changing submission. -/
inductive CallEvent where
  | canExecuteRead
  | getBalancesRead
  | resolverCall
  | oracleRead (o : Oracle)
  | minThresholdRead
  | maxSlippageRead
  | aggregatorCall (leg : SwapLeg)
  | gasEstimateCall
  | feeDataRead
  | walletBalanceRead
  | simulationCall
  | sendTransaction
deriving DecidableEq, Repr

/-! ## Vault debt reader (`getVaultDebtFromResolver`) -/

/-- Value of a hex digit character, `none` for a non-hex character. -/
def hexVal (c : Char) : Option Nat :=
  if '0' ≤ c ∧ c ≤ '9' then some (c.toNat - '0'.toNat)
  else if 'a' ≤ c ∧ c ≤ 'f' then some (c.toNat - 'a'.toNat + 10)
  else if 'A' ≤ c ∧ c ≤ 'F' then some (c.toNat - 'A'.toNat + 10)
  else none

/-- Fold a list of hex digits into a number, failing on the first non-hex
character. -/
def hexDigitsToNat : List Char → Nat → Option Nat
  | [], acc => some acc
  | c :: cs, acc =>
    match hexVal c with
    | none => none
    | some v => hexDigitsToNat cs (acc * 16 + v)

/-- JavaScript `BigInt("0x" + digits)`: throws (`none`) when `digits` is empty
or holds a non-hex character, otherwise the parsed value. -/
def jsBigIntOfHex (digits : List Char) : Option Int :=
  match digits with
  | [] => none
  | _ => (hexDigitsToNat digits 0).map Int.ofNat

/-- JavaScript `String.prototype.slice(start, stop)` for non-negative
in-range-or-clamped indices, on the character list of the string. -/
def jsSlice (s : List Char) (start stop : Nat) : List Char :=
  (s.drop start).take (stop - start)

/-- The `try` body of `getVaultDebtFromResolver`: issue the raw resolver call
(`callResult = none` models the call throwing), slice hex characters
450..513 of the returned string (the 7th 32-byte word behind the `0x`
prefix) and `BigInt` the slice.  `.error ()` models any throw inside the
`try` block. -/
def getVaultDebtBody (callResult : Option (List Char)) : Except Unit Int :=
  match callResult with
  | none => .error ()
  | some result =>
    match jsBigIntOfHex (jsSlice result 450 514) with
    | none => .error ()
    | some borrowAmount => .ok borrowAmount

/-- `getVaultDebtFromResolver`: the `catch` handler logs and returns `0` on
any throw inside the body, so the reader itself never throws. -/
def getVaultDebtFromResolver (callResult : Option (List Char)) : Int :=
  match getVaultDebtBody callResult with
  | .ok borrowAmount => borrowAmount
  | .error _ => 0

/-! ## Allocation calculator (`calculateSwapAllocations`) -/

/-- Arithmetic core of `calculateSwapAllocations`.  The source fetches
`vaultDebt` from the resolver and the two oracle prices itself; here they are
passed explicitly so the calculator is the pure function of four bigints the
spec describes.  `Int.tdiv` is bigint `/` (truncation toward zero). -/
def calculateSwapAllocations (vaultDebt eurUsdPrice usdcUsdPrice eureBalance : Int) :
    Int × Int :=
  if vaultDebt = 0 then
    (0, eureBalance)
  else
    let eureNeededForDebt :=
      Int.tdiv (vaultDebt * usdcUsdPrice * 10 ^ 18) (eurUsdPrice * 10 ^ 6)
    let eureForUsdcWithBuffer := Int.tdiv (eureNeededForDebt * 101) 100
    if eureForUsdcWithBuffer ≥ eureBalance then
      (eureBalance, 0)
    else
      (eureForUsdcWithBuffer, eureBalance - eureForUsdcWithBuffer)

/-- Calls issued while computing the allocation: the resolver read always,
the EUR/USD and USDC/USD oracle reads only on the non-zero-debt branch. -/
def calculateSwapAllocationsCalls (vaultDebt : Int) : List CallEvent :=
  if vaultDebt = 0 then [.resolverCall]
  else [.resolverCall, .oracleRead .eurUsd, .oracleRead .usdcUsd]

/-! ## 1inch calldata parsing (`parseSwapCalldata`) -/

/-- The swap-description struct of the 1inch `swap` signature. -/
structure SwapDescription where
  srcToken : String
  dstToken : String
  srcReceiver : String
  dstReceiver : String
  amount : Int
  minReturnAmount : Int
  flags : Int
deriving DecidableEq, Repr

/-- Result of `ethers` `decodeFunctionData("swap", calldata)`: the executor
address, the description struct and the auxiliary bytes. -/
structure DecodedSwap where
  executor : String
  desc : SwapDescription
  data : String
deriving DecidableEq, Repr

/-- The `SwapData` record assembled from a parsed aggregator payload (the
fields the engine consumes). -/
structure SwapData where
  executor : String
  executorData : String
  swapDescription : SwapDescription
deriving DecidableEq, Repr

/-- JavaScript `toLowerCase()` (modelled character-wise with `Char.toLower`,
which agrees with it on the ASCII hex addresses being compared). -/
def jsToLowerCase (s : String) : String :=
  String.mk (s.data.map Char.toLower)

/-- The receiver-mismatch message thrown inside `parseSwapCalldata`. -/
def mismatchMessage (expectedReceiver got : String) : String :=
  "CRITICAL: dstReceiver mismatch! Expected " ++ expectedReceiver ++ ", got "
    ++ got ++ ". Aborting to prevent fund loss."

/-- The `try` body of `parseSwapCalldata`: ABI-decode the calldata
(`decoded = none` models `decodeFunctionData` throwing), then throw the
distinct receiver-mismatch error when the decoded `dstReceiver` differs
case-insensitively from the expected receiver. -/
def parseSwapCalldataBody (decoded : Option DecodedSwap) (expectedReceiver : String) :
    Except String SwapData :=
  match decoded with
  | none => .error "decodeFunctionData threw"
  | some d =>
    if jsToLowerCase d.desc.dstReceiver ≠ jsToLowerCase expectedReceiver then
      .error (mismatchMessage expectedReceiver d.desc.dstReceiver)
    else
      .ok { executor := d.executor, executorData := d.data, swapDescription := d.desc }

/-- `parseSwapCalldata`: the surrounding `catch` converts every throw from
the body — decode failures and the receiver-mismatch throw alike — into the
generic calldata-format error. -/
def parseSwapCalldata (decoded : Option DecodedSwap) (expectedReceiver : String) :
    Except String SwapData :=
  match parseSwapCalldataBody decoded expectedReceiver with
  | .ok v => .ok v
  | .error _ => .error "Invalid 1inch swap calldata format"

/-! ## Swap route fetching (`get1inchSwapData`, `getFluidDCASwapData`) -/

/-- An aggregator HTTP response as seen per leg: either the HTTP layer threw
(network error / non-2xx), or it returned a payload whose `tx.data` decodes
to the given `DecodedSwap` (`none` = the decode throws). -/
inductive AggResponse where
  | httpError (msg : String)
  | payload (decoded : Option DecodedSwap)
deriving DecidableEq, Repr

/-- `get1inchSwapData`: an HTTP failure propagates; a payload is parsed with
`parseSwapCalldata` against the caller-supplied receiver. -/
def get1inchSwapData (resp : AggResponse) (receiver : String) : Except String SwapData :=
  match resp with
  | .httpError msg => .error msg
  | .payload decoded => parseSwapCalldata decoded receiver

/-- `getFluidDCASwapData`: fetch the USDC leg when `eureForUsdc > 0`, then
the ETH leg when `eureForEth > 0`; a leg with a non-positive amount is
skipped and its route stays `none`.  A throw from either fetch propagates
(the slippage argument only parametrises the HTTP request, which is already
abstracted into `AggResponse`, so it is not a parameter here).  Returns the
trace of aggregator calls next to the result. -/
def getFluidDCASwapData (usdcResp ethResp : AggResponse) (dcaContractAddress : String)
    (eureForUsdc eureForEth : Int) :
    List CallEvent × Except String (Option SwapData × Option SwapData) :=
  if eureForUsdc > 0 then
    match get1inchSwapData usdcResp dcaContractAddress with
    | .error e => ([.aggregatorCall .usdc], .error e)
    | .ok u =>
      if eureForEth > 0 then
        match get1inchSwapData ethResp dcaContractAddress with
        | .error e => ([.aggregatorCall .usdc, .aggregatorCall .eth], .error e)
        | .ok t => ([.aggregatorCall .usdc, .aggregatorCall .eth], .ok (some u, some t))
      else
        ([.aggregatorCall .usdc], .ok (some u, none))
  else
    if eureForEth > 0 then
      match get1inchSwapData ethResp dcaContractAddress with
      | .error e => ([.aggregatorCall .eth], .error e)
      | .ok t => ([.aggregatorCall .eth], .ok (none, some t))
    else
      ([], .ok (none, none))

/-! ## Gas estimation and the execution engine (`executeFluidDCA`) -/

/-- `MAX_GAS_COST_USD = 0.5`: the fixed gas-cost ceiling in USD.  `0.5` is
exactly representable as a double, so the rational `1/2` is its exact value. -/
def MAX_GAS_COST_USD : ℚ := 1 / 2

/-- One invocation's view of the chain, the oracles and the aggregator: the
value every outbound call would return.  `Option` fields model calls whose
wrapper can throw or return `null`. -/
structure ChainEnv where
  /-- `canExecute()` flag of the DCA contract. -/
  canExecute : Bool
  /-- `getBalances()` first component (EURe, 18 decimals). -/
  eureBalance : Int
  /-- `getBalances()` second component (USDC). -/
  usdcBalance : Int
  /-- `getBalances()` third component (ETH). -/
  ethBalance : Int
  /-- `minEureThreshold()`. -/
  minEureThreshold : Int
  /-- `maxSlippageBps()`. -/
  maxSlippageBps : Int
  /-- Raw hex string returned by the resolver `positionByNftId` call,
  `none` = the call threw. -/
  resolverResult : Option (List Char)
  /-- EUR/USD oracle answer (8 decimals). -/
  eurUsdPrice : Int
  /-- USDC/USD oracle answer (8 decimals). -/
  usdcUsdPrice : Int
  /-- ETH/USD oracle answer (8 decimals). -/
  ethUsdPrice : Int
  /-- Aggregator response for the EURe→USDC leg. -/
  usdcResp : AggResponse
  /-- Aggregator response for the EURe→WETH leg. -/
  ethResp : AggResponse
  /-- `estimateGas` result in gas units, `none` = estimation threw. -/
  gasEstimate : Option Int
  /-- `getFeeData().gasPrice`, `none` = `null`. -/
  feeGasPrice : Option Int
  /-- `getBalance(wallet.address)`. -/
  walletBalance : Int
  /-- Whether the read-only simulation `provider.call` succeeds. -/
  simulationOk : Bool
  /-- Message of the simulation revert, when it fails. -/
  simulationError : String
  /-- Whether `sendTransaction` + `wait` succeed. -/
  sendOk : Bool
  /-- Hash of the submitted transaction. -/
  txHash : String
  /-- `receipt.gasUsed`. -/
  gasUsed : Int
  /-- Message of the send failure, when it fails. -/
  sendError : String
deriving DecidableEq, Repr

/-- JavaScript `x ?? d` on a nullable bigint. -/
def jsNullish (x : Option Int) (d : Int) : Int :=
  match x with
  | none => d
  | some v => v

/-- JavaScript `x || d` on a nullable bigint: `null` and `0n` are both
falsy. -/
def jsOr (x : Option Int) (d : Int) : Int :=
  match x with
  | none => d
  | some v => if v = 0 then d else v

/-- What `estimateGasCostUsd` returns (the two fields the engine consumes;
the float arithmetic is carried out exactly over `ℚ`). -/
structure GasEstimateResult where
  gasEstimate : Int
  totalCostUsd : ℚ
deriving DecidableEq, Repr

/-- The fiat cost computed by `estimateGasCostUsd`:
`gasCostEth * ethPriceUsd` with `gasCostEth = gasEstimate * gasPrice / 1e18`
and `ethPriceUsd = ethPriceRaw / 1e8`. -/
def gasCostUsd (gasEstimate gasPrice ethPriceRaw : Int) : ℚ :=
  ((gasEstimate * gasPrice : Int) : ℚ) / (10 ^ 18 : ℚ) * (((ethPriceRaw : ℚ)) / (10 ^ 8 : ℚ))

/-- `estimateGasCostUsd`: estimate gas (a throw aborts the helper and is the
only failure its caller catches), read the fee data and the ETH/USD oracle,
and compute the total fiat cost.  Returns the calls issued next to the
result. -/
def estimateGasCostUsd (env : ChainEnv) : List CallEvent × Option GasEstimateResult :=
  match env.gasEstimate with
  | none => ([.gasEstimateCall], none)
  | some g =>
    ([.gasEstimateCall, .feeDataRead, .oracleRead .ethUsd],
     some { gasEstimate := g,
            totalCostUsd := gasCostUsd g (jsNullish env.feeGasPrice 0) env.ethUsdPrice })

/-- The allocation the engine computes: debt from the resolver, prices from
the oracles, balance from `getBalances()`. -/
def engineAlloc (env : ChainEnv) : Int × Int :=
  calculateSwapAllocations (getVaultDebtFromResolver env.resolverResult)
    env.eurUsdPrice env.usdcUsdPrice env.eureBalance

/-- The two-leg route fetch the engine performs, at the engine's allocation,
with the DCA contract address as spender and receiver of both legs. -/
def engineFetch (env : ChainEnv) (dcaAddress : String) :
    List CallEvent × Except String (Option SwapData × Option SwapData) :=
  getFluidDCASwapData env.usdcResp env.ethResp dcaAddress
    (engineAlloc env).1 (engineAlloc env).2

/-- One constructor per `return` site of `executeFluidDCA` (plus `thrown` for
an exception leaving the function uncaught, as a route-fetch throw does). -/
inductive EngineOutcome where
  /-- `canExecute()` was false: `{success: false, error: "EURe balance below threshold"}`. -/
  | notEligible
  /-- Both routes were `null`: `{success: false, error: "No swaps needed"}`. -/
  | noSwapsNeeded
  /-- Gas estimation threw: `{success: false, error: "Gas estimation failed: ..."}`. -/
  | gasEstimationFailed
  /-- Dry run: success result reported right after gas estimation. -/
  | dryRunSuccess (eureBalance : Int) (usdcSwap ethSwap : Option SwapData)
  /-- Gas-cost gate: `{success: false, error: "Gas cost $.. exceeds limit $.."}`. -/
  | gasCostExceeded (totalCostUsd : ℚ)
  /-- Wallet-solvency gate: `{success: false, error: "Insufficient ETH balance..."}`. -/
  | insufficientGasFunds (required available : Int)
  /-- Pre-flight simulation reverted: `{success: false, error: "Simulation failed: ..."}`. -/
  | simulationFailed (msg : String)
  /-- Transaction submitted and confirmed. -/
  | submitted (txHash : String) (gasUsed eureBalance : Int) (usdcSwap ethSwap : Option SwapData)
  /-- `sendTransaction` / `wait` threw: `{success: false, error: msg}`. -/
  | sendFailed (msg : String)
  /-- An exception escaped `executeFluidDCA` (caught only by the runner). -/
  | thrown (msg : String)
deriving DecidableEq, Repr

/-- `success` field of the `ExecutionResult` each outcome returns (`thrown`
produces no result; the runner treats the exception as a failure). -/
def EngineOutcome.isSuccess : EngineOutcome → Bool
  | .dryRunSuccess _ _ _ => true
  | .submitted _ _ _ _ _ => true
  | _ => false

/-- `error` field of the `ExecutionResult` each outcome returns, for the
return sites whose error text is a string literal in the source. -/
def EngineOutcome.errorText : EngineOutcome → Option String
  | .notEligible => some "EURe balance below threshold"
  | .noSwapsNeeded => some "No swaps needed"
  | _ => none

/-- The calls steps 1–3 of the engine issue once the eligibility check has
passed: the flag read, the `getBalances` / resolver-debt / max-slippage
reads of step 2, and the allocation calculator's own reads of step 3. -/
def engineHead (env : ChainEnv) : List CallEvent :=
  [.canExecuteRead, .getBalancesRead, .resolverCall, .maxSlippageRead]
    ++ calculateSwapAllocationsCalls (getVaultDebtFromResolver env.resolverResult)

/-- `executeFluidDCA`: the execution engine, as the pair (trace of outbound
calls, outcome).  Mirrors the source step by step: eligibility check,
balance / debt / slippage reads, allocation, route fetch, gas estimation,
dry-run early return, gas-cost gate, wallet-solvency gate, simulation,
submission. -/
def executeFluidDCA (env : ChainEnv) (dryRun : Bool) (dcaAddress : String) :
    List CallEvent × EngineOutcome :=
  if env.canExecute = false then
    ([.canExecuteRead], .notEligible)
  else
    match engineFetch env dcaAddress with
    | (t4, .error msg) => (engineHead env ++ t4, .thrown msg)
    | (t4, .ok (usdcSwap, ethSwap)) =>
      if usdcSwap = none ∧ ethSwap = none then
        (engineHead env ++ t4, .noSwapsNeeded)
      else
        match estimateGasCostUsd env with
        | (tg, none) => (engineHead env ++ t4 ++ tg, .gasEstimationFailed)
        | (tg, some gr) =>
          if dryRun then
            (engineHead env ++ t4 ++ tg, .dryRunSuccess env.eureBalance usdcSwap ethSwap)
          else if gr.totalCostUsd > MAX_GAS_COST_USD then
            (engineHead env ++ t4 ++ tg, .gasCostExceeded gr.totalCostUsd)
          else if env.walletBalance < gr.gasEstimate * jsOr env.feeGasPrice 30000000000 then
            (engineHead env ++ t4 ++ tg ++ [.walletBalanceRead, .feeDataRead],
             .insufficientGasFunds (gr.gasEstimate * jsOr env.feeGasPrice 30000000000)
               env.walletBalance)
          else if env.simulationOk = false then
            (engineHead env ++ t4 ++ tg ++ [.walletBalanceRead, .feeDataRead, .simulationCall],
             .simulationFailed env.simulationError)
          else if env.sendOk then
            (engineHead env ++ t4 ++ tg
               ++ [.walletBalanceRead, .feeDataRead, .simulationCall, .sendTransaction],
             .submitted env.txHash env.gasUsed env.eureBalance usdcSwap ethSwap)
          else
            (engineHead env ++ t4 ++ tg
               ++ [.walletBalanceRead, .feeDataRead, .simulationCall, .sendTransaction],
             .sendFailed env.sendError)

/-! ## Status check and the runner (`checkExecutionStatus`, `run-execution.ts`) -/

/-- What `checkExecutionStatus` returns (the runner only branches on
`canExecute`; the source formats the numbers to strings for display). -/
structure StatusResult where
  canExecute : Bool
  eureBalance : Int
  vaultDebt : Int
  minThreshold : Int
deriving DecidableEq, Repr

/-- `checkExecutionStatus`: reads the flag, the balances, the resolver debt
and the threshold — all four reads happen unconditionally, in this order. -/
def checkExecutionStatus (env : ChainEnv) : List CallEvent × StatusResult :=
  ([.canExecuteRead, .getBalancesRead, .resolverCall, .minThresholdRead],
   { canExecute := env.canExecute
     eureBalance := env.eureBalance
     vaultDebt := getVaultDebtFromResolver env.resolverResult
     minThreshold := env.minEureThreshold })

/-- `main` of `run-execution.ts` (environment already validated): always run
the status check first; `--check-only` exits 0/2 on the flag; a false flag
exits 2; otherwise run the engine and exit 0 on success, 1 on a failure
result or an uncaught exception.  Returns (trace, exit code). -/
def runExecutionMain (env : ChainEnv) (dryRun checkOnly : Bool) (dcaAddress : String) :
    List CallEvent × Nat :=
  match checkExecutionStatus env with
  | (ts, status) =>
    if checkOnly then
      (ts, if status.canExecute then 0 else 2)
    else if status.canExecute = false then
      (ts, 2)
    else
      match executeFluidDCA env dryRun dcaAddress with
      | (te, outcome) => (ts ++ te, if outcome.isSuccess then 0 else 1)

/-! ## Concrete fixtures shared by witnesses and counterexamples -/

/-- A swap description whose `dstReceiver` is the DCA contract address
(upper-cased, to exercise the case-insensitive comparison). -/
def goodDesc : SwapDescription :=
  { srcToken := "0xeure", dstToken := "0xweth", srcReceiver := "0xrouter"
    dstReceiver := "0xDCA", amount := 5, minReturnAmount := 4, flags := 0 }

/-- A decoded aggregator payload whose receiver matches the DCA address. -/
def goodDecoded : DecodedSwap :=
  { executor := "0xexec", desc := goodDesc, data := "0xdeadbeef" }

/-- The `SwapData` that `parseSwapCalldata` produces from `goodDecoded`. -/
def goodSwap : SwapData :=
  { executor := "0xexec", executorData := "0xdeadbeef", swapDescription := goodDesc }

/-- A decoded aggregator payload redirecting funds to a third party. -/
def badDecoded : DecodedSwap :=
  { executor := "0xexec"
    desc := { goodDesc with dstReceiver := "0xBAD" }
    data := "0xdeadbeef" }

/-- A favourable chain view: eligible, 5 wei-units of EURe, no vault debt
(the resolver call throws, which reads as debt 0), matching aggregator
payloads for both legs, gas cost exactly at the ceiling
(1 gas unit at 10^18 wei with ETH at 0.5 USD), a solvent wallet, and a
simulation and submission that succeed. -/
def baseEnv : ChainEnv :=
  { canExecute := true, eureBalance := 5, usdcBalance := 0, ethBalance := 0
    minEureThreshold := 1, maxSlippageBps := 50
    resolverResult := none
    eurUsdPrice := 108000000, usdcUsdPrice := 100000000, ethUsdPrice := 50000000
    usdcResp := .payload (some goodDecoded), ethResp := .payload (some goodDecoded)
    gasEstimate := some 1, feeGasPrice := some (10 ^ 18)
    walletBalance := 10 ^ 20
    simulationOk := true, simulationError := "sim revert"
    sendOk := true, txHash := "0xhash", gasUsed := 100, sendError := "send error" }

/-- A resolver return buffer of 452 hex characters: the `0x` prefix, 448
zero digits, then `ff`.  It ends before hex position 514, so it is too short
to contain the full 7th 32-byte word. -/
def buffer452 : List Char := '0' :: 'x' :: (List.replicate 448 '0' ++ ['f', 'f'])

/-! ## Claims about the allocation calculator -/

/-- **C2** — For every non-negative source-asset balance B, every
non-negative debt D and all positive oracle prices, the allocation
calculator returns two non-negative amounts whose exact integer sum
equals B: no asset is created or destroyed by the split. -/
theorem allocation_sum_preserved (D P1 P2 B : Int)
    (hB : 0 ≤ B) (hD : 0 ≤ D) (h1 : 0 < P1) (h2 : 0 < P2) :
    0 ≤ (calculateSwapAllocations D P1 P2 B).1 ∧
    0 ≤ (calculateSwapAllocations D P1 P2 B).2 ∧
    (calculateSwapAllocations D P1 P2 B).1 + (calculateSwapAllocations D P1 P2 B).2 = B := by
  unfold calculateSwapAllocations
  split
  · exact ⟨le_refl 0, hB, by ring⟩
  · have hnum : 0 ≤ D * P2 * 10 ^ 18 :=
      mul_nonneg (mul_nonneg hD h2.le) (by norm_num)
    have hden : 0 ≤ P1 * 10 ^ 6 := mul_nonneg h1.le (by norm_num)
    have hn : 0 ≤ Int.tdiv (D * P2 * 10 ^ 18) (P1 * 10 ^ 6) :=
      Int.tdiv_nonneg hnum hden
    have hbuf : 0 ≤ Int.tdiv (Int.tdiv (D * P2 * 10 ^ 18) (P1 * 10 ^ 6) * 101) 100 :=
      Int.tdiv_nonneg (mul_nonneg hn (by norm_num)) (by norm_num)
    dsimp only
    split
    · exact ⟨hB, le_refl 0, by ring⟩
    · refine ⟨hbuf, ?_, by ring⟩
      omega

/-- Witness for C2 at D = 1, P1 = 1, P2 = 1, B = 5. -/
theorem allocation_sum_preserved_witness :
    (0 : Int) ≤ 5 ∧ (0 : Int) ≤ 1 ∧ (0 : Int) < 1 ∧ (0 : Int) < 1 ∧
    (0 ≤ (calculateSwapAllocations 1 1 1 5).1 ∧
     0 ≤ (calculateSwapAllocations 1 1 1 5).2 ∧
     (calculateSwapAllocations 1 1 1 5).1 + (calculateSwapAllocations 1 1 1 5).2 = 5) :=
  ⟨by norm_num, by norm_num, by norm_num, by norm_num,
   allocation_sum_preserved 1 1 1 5 (by norm_num) (by norm_num) (by norm_num) (by norm_num)⟩

/-- **C6** — For every non-negative balance B and every debt D and oracle
prices, however large, the computed debt-leg amount never exceeds B: the
buffered debt-repayment amount is clamped to the available balance.
(The positive-price hypothesis only reflects that JavaScript bigint
division throws on a zero divisor, so the source function has no value
there; the clamp needs nothing else.) -/
theorem allocation_clamped (D P1 P2 B : Int) (hB : 0 ≤ B) (_h1 : 0 < P1) :
    (calculateSwapAllocations D P1 P2 B).1 ≤ B := by
  unfold calculateSwapAllocations
  split
  · exact hB
  · dsimp only
    split
    · exact le_refl B
    · next h => exact le_of_not_ge h

/-- Witness for C6 at an astronomically large debt: D = 10^30, B = 5. -/
theorem allocation_clamped_witness :
    (0 : Int) ≤ 5 ∧ (0 : Int) < 1 ∧
    (calculateSwapAllocations (10 ^ 30) 1 1 5).1 ≤ 5 :=
  ⟨by norm_num, by norm_num, allocation_clamped (10 ^ 30) 1 1 5 (by norm_num) (by norm_num)⟩

/-! ## Claims about the swap route fetcher -/

/-- **C7** — For each swap leg whose allocated amount is zero, no aggregator
HTTP call is made for that leg and its route is absent; on a run that
returns (does not throw), an aggregator call is issued for a leg if and
only if that leg's allocated amount is strictly positive. -/
theorem aggregator_call_iff_positive
    (usdcResp ethResp : AggResponse) (dca : String) (u e : Int)
    (t : List CallEvent) (us es : Option SwapData)
    (h : getFluidDCASwapData usdcResp ethResp dca u e = (t, .ok (us, es))) :
    (CallEvent.aggregatorCall .usdc ∈ t ↔ 0 < u) ∧ (us = none ↔ ¬ 0 < u) ∧
    (CallEvent.aggregatorCall .eth ∈ t ↔ 0 < e) ∧ (es = none ↔ ¬ 0 < e) := by
  unfold getFluidDCASwapData at h
  split at h
  · next hu =>
    split at h
    · simp at h
    · split at h
      · split at h
        · simp at h
        · next he _ _ _ =>
          simp only [Prod.mk.injEq, Except.ok.injEq] at h
          obtain ⟨rfl, rfl, rfl⟩ := h
          simp [hu, he]
      · next he =>
        simp only [Prod.mk.injEq, Except.ok.injEq] at h
        obtain ⟨rfl, rfl, rfl⟩ := h
        simp [hu, he]
  · next hu =>
    split at h
    · split at h
      · simp at h
      · next he _ _ _ =>
        simp only [Prod.mk.injEq, Except.ok.injEq] at h
        obtain ⟨rfl, rfl, rfl⟩ := h
        simp [hu, he]
    · next he =>
      simp only [Prod.mk.injEq, Except.ok.injEq] at h
      obtain ⟨rfl, rfl, rfl⟩ := h
      simp [hu, he]

/-- Witness for C7 at allocation (0, 1): the USDC leg is skipped with a
`none` route, the ETH leg is fetched. -/
theorem aggregator_call_iff_positive_witness :
    (CallEvent.aggregatorCall .usdc ∈ [CallEvent.aggregatorCall .eth] ↔ (0 : Int) < 0) ∧
    ((none : Option SwapData) = none ↔ ¬ (0 : Int) < 0) ∧
    (CallEvent.aggregatorCall .eth ∈ [CallEvent.aggregatorCall .eth] ↔ (0 : Int) < 1) ∧
    (some goodSwap = (none : Option SwapData) ↔ ¬ (0 : Int) < 1) :=
  aggregator_call_iff_positive (.payload (some goodDecoded)) (.payload (some goodDecoded))
    "0xdca" 0 1 [CallEvent.aggregatorCall .eth] none (some goodSwap) (by decide)

/-! ## Claims about the vault debt reader -/

set_option maxRecDepth 4000 in
/-- **C8 (counterexample)** — A 452-character resolver return buffer ends
before hex position 514, so it is too short to contain the expected 7th
word; yet the reader decodes the partial slice without any failure and
returns the truncated value 255, not 0. -/
theorem debt_reader_truncates_short_buffer :
    buffer452.length = 452 ∧
    getVaultDebtBody (some buffer452) = .ok 255 ∧
    getVaultDebtFromResolver (some buffer452) = 255 := by
  refine ⟨by decide, by decide, by decide⟩

/-- **C8 (amended)** — The reader returns 0, after logging, on any throw
inside its body (a failed resolver call, or a decode failure — which
happens exactly when the returned buffer ends at or before hex position
450, making the slice empty); being a total catch-all, it never throws to
its caller.  A buffer that reaches position 450 but ends before 514 is
instead silently decoded to a truncated value (see the counterexample). -/
theorem debt_reader_degrades_to_zero :
    (∀ r : Option (List Char), getVaultDebtBody r = .error () →
      getVaultDebtFromResolver r = 0) ∧
    (∀ s : List Char, s.length ≤ 450 → getVaultDebtFromResolver (some s) = 0) ∧
    getVaultDebtFromResolver none = 0 := by
  refine ⟨?_, ?_, by decide⟩
  · intro r h
    unfold getVaultDebtFromResolver
    rw [h]
  · intro s hs
    unfold getVaultDebtFromResolver getVaultDebtBody
    have hdrop : s.drop 450 = [] := List.drop_eq_nil_of_le hs
    simp [jsSlice, hdrop, jsBigIntOfHex]

/-- Witness for C8 (amended), at a resolver call that throws. -/
theorem debt_reader_degrades_to_zero_witness :
    getVaultDebtBody none = .error () ∧ getVaultDebtFromResolver none = 0 :=
  ⟨by decide, debt_reader_degrades_to_zero.1 none (by decide)⟩

/-! ## Trace lemmas

Every call the allocation calculator, the route fetcher and the gas
estimator can issue, classified — the temporal claims reduce to these. -/

lemma mem_allocation_calls {d : Int} {e : CallEvent}
    (h : e ∈ calculateSwapAllocationsCalls d) :
    e = .resolverCall ∨ e = .oracleRead .eurUsd ∨ e = .oracleRead .usdcUsd := by
  unfold calculateSwapAllocationsCalls at h
  split at h <;> simp_all

lemma mem_fetch_trace {a b : AggResponse} {dca : String} {u v : Int} {e : CallEvent}
    (h : e ∈ (getFluidDCASwapData a b dca u v).1) :
    e = .aggregatorCall .usdc ∨ e = .aggregatorCall .eth := by
  unfold getFluidDCASwapData at h
  split at h
  · split at h
    · simp_all
    · split at h
      · split at h <;> simp_all
      · simp_all
  · split at h
    · split at h <;> simp_all
    · simp_all

lemma mem_engineFetch_trace {env : ChainEnv} {dca : String} {e : CallEvent}
    (h : e ∈ (engineFetch env dca).1) :
    e = .aggregatorCall .usdc ∨ e = .aggregatorCall .eth :=
  mem_fetch_trace h

lemma mem_gas_trace {env : ChainEnv} {e : CallEvent}
    (h : e ∈ (estimateGasCostUsd env).1) :
    e = .gasEstimateCall ∨ e = .feeDataRead ∨ e = .oracleRead .ethUsd := by
  unfold estimateGasCostUsd at h
  split at h <;> simp_all

lemma mem_engineHead {env : ChainEnv} {e : CallEvent} (h : e ∈ engineHead env) :
    e = .canExecuteRead ∨ e = .getBalancesRead ∨ e = .resolverCall ∨
    e = .maxSlippageRead ∨ e = .oracleRead .eurUsd ∨ e = .oracleRead .usdcUsd := by
  unfold engineHead at h
  rcases List.mem_append.mp h with h | h
  · simp at h
    tauto
  · rcases mem_allocation_calls h with h | h | h <;> tauto

set_option maxHeartbeats 1000000 in
/-- In dry-run mode the engine's trace only ever holds the step 1–5 calls:
the eligibility / balance / debt / slippage / oracle reads, the aggregator
calls and the gas-estimation reads. -/
lemma dry_run_trace_subset (env : ChainEnv) (dca : String) (e : CallEvent)
    (h : e ∈ (executeFluidDCA env true dca).1) :
    e = .canExecuteRead ∨ e = .getBalancesRead ∨ e = .resolverCall ∨
    e = .maxSlippageRead ∨ e = .oracleRead .eurUsd ∨ e = .oracleRead .usdcUsd ∨
    e = .aggregatorCall .usdc ∨ e = .aggregatorCall .eth ∨
    e = .gasEstimateCall ∨ e = .feeDataRead ∨ e = .oracleRead .ethUsd := by
  unfold executeFluidDCA at h
  split at h
  · simp at h
    tauto
  · split at h
    · next t4 msg heq =>
      simp only [List.append_assoc, List.mem_append] at h
      rcases h with h | h
      · rcases mem_engineHead h with h | h | h | h | h | h <;> tauto
      · have hm : e ∈ (engineFetch env dca).1 := by rw [heq]; exact h
        rcases mem_engineFetch_trace hm with h | h <;> tauto
    · next t4 us es heq =>
      split at h
      · simp only [List.append_assoc, List.mem_append] at h
        rcases h with h | h
        · rcases mem_engineHead h with h | h | h | h | h | h <;> tauto
        · have hm : e ∈ (engineFetch env dca).1 := by rw [heq]; exact h
          rcases mem_engineFetch_trace hm with h | h <;> tauto
      · split at h
        · next tg heq2 =>
          simp only [List.append_assoc, List.mem_append] at h
          rcases h with h | h | h
          · rcases mem_engineHead h with h | h | h | h | h | h <;> tauto
          · have hm : e ∈ (engineFetch env dca).1 := by rw [heq]; exact h
            rcases mem_engineFetch_trace hm with h | h <;> tauto
          · have hm : e ∈ (estimateGasCostUsd env).1 := by rw [heq2]; exact h
            rcases mem_gas_trace hm with h | h | h <;> tauto
        · next tg gr heq2 =>
          rw [if_pos rfl] at h
          simp only [List.append_assoc, List.mem_append] at h
          rcases h with h | h | h
          · rcases mem_engineHead h with h | h | h | h | h | h <;> tauto
          · have hm : e ∈ (engineFetch env dca).1 := by rw [heq]; exact h
            rcases mem_engineFetch_trace hm with h | h <;> tauto
          · have hm : e ∈ (estimateGasCostUsd env).1 := by rw [heq2]; exact h
            rcases mem_gas_trace hm with h | h | h <;> tauto

/-- Normal form of the engine once the gate point is reached: eligibility
passed, the route fetch returned with at least one route, gas estimation
succeeded.  What remains is exactly the dry-run early return and the four
hard gates. -/
lemma executeFluidDCA_after_estimation (env : ChainEnv) (dry : Bool) (dca : String)
    (us es : Option SwapData) (g : Int)
    (hc : env.canExecute = true)
    (hf : (engineFetch env dca).2 = Except.ok (us, es))
    (hne : ¬ (us = none ∧ es = none))
    (hg : env.gasEstimate = some g) :
    (executeFluidDCA env dry dca).2 =
      if dry then
        EngineOutcome.dryRunSuccess env.eureBalance us es
      else if MAX_GAS_COST_USD < gasCostUsd g (jsNullish env.feeGasPrice 0) env.ethUsdPrice then
        .gasCostExceeded (gasCostUsd g (jsNullish env.feeGasPrice 0) env.ethUsdPrice)
      else if env.walletBalance < g * jsOr env.feeGasPrice 30000000000 then
        .insufficientGasFunds (g * jsOr env.feeGasPrice 30000000000) env.walletBalance
      else if env.simulationOk = false then
        .simulationFailed env.simulationError
      else if env.sendOk then
        .submitted env.txHash env.gasUsed env.eureBalance us es
      else
        .sendFailed env.sendError := by
  rcases hE : engineFetch env dca with ⟨t4, r4⟩
  rw [hE] at hf
  dsimp only at hf
  subst hf
  unfold executeFluidDCA
  simp only [hc]
  rw [if_neg (by decide : ¬ (true = false))]
  rw [hE]
  dsimp only
  rw [if_neg hne]
  unfold estimateGasCostUsd
  rw [hg]
  dsimp only
  simp only [apply_ite Prod.snd]

/-! ## Claims about the execution engine -/

/-- **C4** — In dry-run mode, for all chain, oracle and aggregator inputs —
however favourable the gas cost or balances — the engine never issues the
state-changing transaction submission. -/
theorem dry_run_never_submits (env : ChainEnv) (dca : String) :
    CallEvent.sendTransaction ∉ (executeFluidDCA env true dca).1 := by
  intro h
  rcases dry_run_trace_subset env dca _ h with h | h | h | h | h | h | h | h | h | h | h <;>
    simp at h

/-- **C9** — In dry-run mode the engine returns the success result right
after gas estimation: the conclusion holds with no constraint on the
estimated cost or the wallet balance (so the cost-ceiling and solvency
gates are skipped), and neither the pre-flight simulation nor the wallet
balance read ever appears in the trace. -/
theorem dry_run_skips_gates (env : ChainEnv) (dca : String)
    (us es : Option SwapData) (g : Int)
    (hc : env.canExecute = true)
    (hf : (engineFetch env dca).2 = Except.ok (us, es))
    (hne : ¬ (us = none ∧ es = none))
    (hg : env.gasEstimate = some g) :
    (executeFluidDCA env true dca).2 = .dryRunSuccess env.eureBalance us es ∧
    CallEvent.simulationCall ∉ (executeFluidDCA env true dca).1 ∧
    CallEvent.walletBalanceRead ∉ (executeFluidDCA env true dca).1 := by
  refine ⟨?_, ?_, ?_⟩
  · rw [executeFluidDCA_after_estimation env true dca us es g hc hf hne hg]
    simp
  · intro h
    rcases dry_run_trace_subset env dca _ h with h | h | h | h | h | h | h | h | h | h | h <;>
      simp at h
  · intro h
    rcases dry_run_trace_subset env dca _ h with h | h | h | h | h | h | h | h | h | h | h <;>
      simp at h

/-- A chain view identical to `baseEnv` except that ETH is quoted at
10^4 USD per gas-wei configuration, putting the estimated cost far above
the ceiling. -/
def envCostly : ChainEnv := { baseEnv with ethUsdPrice := 10 ^ 12 }

/-- Witness for C9: in `envCostly` the estimate is far above the ceiling,
yet the dry run succeeds without a simulation or wallet read. -/
theorem dry_run_skips_gates_witness :
    MAX_GAS_COST_USD < gasCostUsd 1 (jsNullish envCostly.feeGasPrice 0) envCostly.ethUsdPrice ∧
    ((executeFluidDCA envCostly true "0xdca").2
        = .dryRunSuccess envCostly.eureBalance none (some goodSwap) ∧
      CallEvent.simulationCall ∉ (executeFluidDCA envCostly true "0xdca").1 ∧
      CallEvent.walletBalanceRead ∉ (executeFluidDCA envCostly true "0xdca").1) := by
  refine ⟨by norm_num [gasCostUsd, jsNullish, envCostly, baseEnv, MAX_GAS_COST_USD], ?_⟩
  exact dry_run_skips_gates envCostly "0xdca" none (some goodSwap) 1 rfl
    (by decide) (by decide) rfl

/-- **C3** — Once the gate point is reached in live mode, the engine aborts
with the gas-cost-exceeded outcome if and only if the estimated total fiat
cost is strictly greater than the 0.50 ceiling. -/
theorem gas_gate_strictly_greater (env : ChainEnv) (dca : String)
    (us es : Option SwapData) (g : Int)
    (hc : env.canExecute = true)
    (hf : (engineFetch env dca).2 = Except.ok (us, es))
    (hne : ¬ (us = none ∧ es = none))
    (hg : env.gasEstimate = some g) :
    (executeFluidDCA env false dca).2
        = .gasCostExceeded (gasCostUsd g (jsNullish env.feeGasPrice 0) env.ethUsdPrice)
      ↔ MAX_GAS_COST_USD < gasCostUsd g (jsNullish env.feeGasPrice 0) env.ethUsdPrice := by
  rw [executeFluidDCA_after_estimation env false dca us es g hc hf hne hg]
  rw [if_neg (by decide : ¬ (false = true))]
  by_cases hgt :
      MAX_GAS_COST_USD < gasCostUsd g (jsNullish env.feeGasPrice 0) env.ethUsdPrice
  · rw [if_pos hgt]
    simp [hgt]
  · rw [if_neg hgt]
    refine iff_of_false ?_ hgt
    split
    · simp
    · split
      · simp
      · split <;> simp

/-- A chain view identical to `baseEnv` except that the gas estimate comes
out one fiat-cent above the ceiling (0.51 USD). -/
def envOver : ChainEnv := { baseEnv with ethUsdPrice := 51000000 }

/-- Witness for C3: in `baseEnv` the cost is exactly the 0.50 ceiling and
the run proceeds past the gate; in `envOver` it is 0.51 and the run is
blocked. -/
theorem gas_gate_strictly_greater_witness :
    (executeFluidDCA baseEnv false "0xdca").2
        ≠ .gasCostExceeded (gasCostUsd 1 (jsNullish baseEnv.feeGasPrice 0) baseEnv.ethUsdPrice) ∧
    (executeFluidDCA envOver false "0xdca").2
        = .gasCostExceeded (gasCostUsd 1 (jsNullish envOver.feeGasPrice 0) envOver.ethUsdPrice) := by
  constructor
  · intro hcontra
    have h := (gas_gate_strictly_greater baseEnv "0xdca" none (some goodSwap) 1 rfl
      (by decide) (by decide) rfl).mp hcontra
    norm_num [gasCostUsd, jsNullish, baseEnv, MAX_GAS_COST_USD] at h
  · exact (gas_gate_strictly_greater envOver "0xdca" none (some goodSwap) 1 rfl
      (by decide) (by decide) rfl).mpr
      (by norm_num [gasCostUsd, jsNullish, envOver, baseEnv, MAX_GAS_COST_USD])

/-! ## Claims about the runner -/

/-- A chain view identical to `baseEnv` except that the eligibility flag
reads false. -/
def envNotEligible : ChainEnv := { baseEnv with canExecute := false }

/-- **C5 (counterexample)** — With the eligibility flag false the runner
does exit 2, but the debt resolver is called by the status check that
precedes the eligibility branch: the resolver is not untouched. -/
theorem eligibility_false_touches_resolver :
    (runExecutionMain envNotEligible false false "0xdca").2 = 2 ∧
    CallEvent.resolverCall ∈ (runExecutionMain envNotEligible false false "0xdca").1 := by
  refine ⟨by decide, by decide⟩

/-- **C5 (amended)** — When the eligibility flag reads false, the runner
terminates with exit code 2 (the NotNeeded class, not an error) and no
oracle, aggregator or submission call is ever issued; however the status
check that reads the flag also reads the balances, the debt resolver and
the threshold unconditionally, so the resolver is touched exactly by that
status check. -/
theorem eligibility_false_exits_two (env : ChainEnv) (dry : Bool) (dca : String)
    (hc : env.canExecute = false) :
    (runExecutionMain env dry false dca).2 = 2 ∧
    (∀ o : Oracle, CallEvent.oracleRead o ∉ (runExecutionMain env dry false dca).1) ∧
    (∀ leg : SwapLeg, CallEvent.aggregatorCall leg ∉ (runExecutionMain env dry false dca).1) ∧
    CallEvent.sendTransaction ∉ (runExecutionMain env dry false dca).1 ∧
    CallEvent.resolverCall ∈ (runExecutionMain env dry false dca).1 := by
  have hrun : runExecutionMain env dry false dca
      = ([.canExecuteRead, .getBalancesRead, .resolverCall, .minThresholdRead], 2) := by
    unfold runExecutionMain checkExecutionStatus
    simp [hc]
  rw [hrun]
  refine ⟨rfl, ?_, ?_, by decide, by decide⟩
  · intro o
    simp
  · intro leg
    simp

/-- Witness for C5 (amended) at `envNotEligible`. -/
theorem eligibility_false_exits_two_witness :
    (runExecutionMain envNotEligible true false "0xdca").2 = 2 ∧
    CallEvent.oracleRead .eurUsd ∉ (runExecutionMain envNotEligible true false "0xdca").1 ∧
    CallEvent.aggregatorCall .usdc ∉ (runExecutionMain envNotEligible true false "0xdca").1 ∧
    CallEvent.sendTransaction ∉ (runExecutionMain envNotEligible true false "0xdca").1 ∧
    CallEvent.resolverCall ∈ (runExecutionMain envNotEligible true false "0xdca").1 :=
  have h := eligibility_false_exits_two envNotEligible true "0xdca" rfl
  ⟨h.1, h.2.1 .eurUsd, h.2.2.1 .usdc, h.2.2.2.1, h.2.2.2.2⟩

/-- A chain view identical to `baseEnv` except that the source-asset
balance is zero, which makes both allocated amounts zero. -/
def envZeroBalance : ChainEnv := { baseEnv with eureBalance := 0 }

/-- **C10** — When both legs' allocated amounts are zero (eligibility
passed but no swap is possible), the engine returns the failure result
whose error text is the literal "No swaps needed", and the runner maps it
to exit code 1 (the retryable-failure class), not to the NotNeeded /
exit-code-2 class. -/
theorem no_swaps_needed_fails_retryably (env : ChainEnv) (dry : Bool) (dca : String)
    (hc : env.canExecute = true)
    (ha : engineAlloc env = (0, 0)) :
    (executeFluidDCA env dry dca).2 = .noSwapsNeeded ∧
    EngineOutcome.errorText .noSwapsNeeded = some "No swaps needed" ∧
    EngineOutcome.isSuccess .noSwapsNeeded = false ∧
    (runExecutionMain env dry false dca).2 = 1 := by
  have hfe : engineFetch env dca = ([], Except.ok (none, none)) := by
    unfold engineFetch
    rw [ha]
    rfl
  have heng : executeFluidDCA env dry dca = (engineHead env ++ [], .noSwapsNeeded) := by
    unfold executeFluidDCA
    simp only [hc]
    rw [if_neg (by decide : ¬ (true = false))]
    rw [hfe]
    simp
  refine ⟨by rw [heng], rfl, rfl, ?_⟩
  unfold runExecutionMain checkExecutionStatus
  rw [heng]
  simp [hc, EngineOutcome.isSuccess]

/-- Witness for C10 at `envZeroBalance`. -/
theorem no_swaps_needed_fails_retryably_witness :
    (executeFluidDCA envZeroBalance false "0xdca").2 = .noSwapsNeeded ∧
    EngineOutcome.errorText .noSwapsNeeded = some "No swaps needed" ∧
    EngineOutcome.isSuccess .noSwapsNeeded = false ∧
    (runExecutionMain envZeroBalance false false "0xdca").2 = 1 :=
  no_swaps_needed_fails_retryably envZeroBalance false "0xdca" rfl (by decide)

/-! ## The receiver-mismatch claim -/

/-- A chain view identical to `baseEnv` except that the aggregator's ETH-leg
payload redirects funds: its decoded `dstReceiver` is a third-party
address. -/
def badEnv : ChainEnv := { baseEnv with ethResp := .payload (some badDecoded) }

/-- **C1** — At a swap response whose decoded `dstReceiver` differs from
the expected receiver, the body of `parseSwapCalldata` does throw the
distinct receiver-mismatch error, but its own catch handler downgrades it
to the generic calldata-format error; the engine never reaches gas
estimation, transaction building or submission, yet it terminates with the
generic error propagating as an uncaught exception, which the runner maps
to exit code 1 — the retryable Failed class, not a distinct Blocked
outcome. -/
theorem receiver_mismatch_downgraded :
    parseSwapCalldataBody (some badDecoded) "0xdca"
      = .error (mismatchMessage "0xdca" "0xBAD") ∧
    parseSwapCalldata (some badDecoded) "0xdca"
      = .error "Invalid 1inch swap calldata format" ∧
    (executeFluidDCA badEnv false "0xdca").2
      = .thrown "Invalid 1inch swap calldata format" ∧
    CallEvent.sendTransaction ∉ (executeFluidDCA badEnv false "0xdca").1 ∧
    CallEvent.gasEstimateCall ∉ (executeFluidDCA badEnv false "0xdca").1 ∧
    EngineOutcome.isSuccess (.thrown "Invalid 1inch swap calldata format") = false ∧
    (runExecutionMain badEnv false false "0xdca").2 = 1 := by
  refine ⟨by decide, by decide, by decide, by decide, by decide, rfl, by decide⟩

end FluidDCA
